import Mathlib

/-!
Shallow embedding of selected NodeBB modules, with proofs checking the
natural-language specification against the code.

Each section embeds one source file (pure functions become Lean functions,
async database/plugin calls become explicit oracle parameters bundled in an
environment structure, thrown exceptions become `Except String`), followed by
the theorems settling the spec claims about that file.
-/

set_option autoImplicit false

namespace NodeBB

/-! ## `src/database/mongo/sorted/add.js`

The score argument of `sortedSetsAdd` is either a single JS value or an array
of JS values (`Array.isArray(scores)`).  JS values are kept abstract as a type
`V`; the helpers the adapter calls on them (`utils.isNumber`, `parseFloat`,
`helpers.valueToString` which is `String(value)`, and template-literal
interpolation) are oracle fields of `MongoEnv`. -/

namespace MongoSortedAdd

/-- The `scores` argument: a single value or an array (`Array.isArray`). -/
inductive ScoresArg (V : Type) where
  | single (v : V)
  | arr (vs : List V)
deriving DecidableEq

/-- One upsert queued on the bulk operation:
`find({ _key, value }).upsert().updateOne({ $set: { score } })`. -/
structure UpsertOp (V : Type) where
  key : V
  value : String
  score : ℚ
deriving DecidableEq

/-- The list of upserts queued on one `initializeUnorderedBulkOp()` handle. -/
abbrev BulkWrite (V : Type) := List (UpsertOp V)

/-- Oracles for the JS primitives the adapter applies to abstract values. -/
structure MongoEnv (V : Type) where
  isNumber : V → Bool
  parseFloat : V → ℚ
  valueToString : V → String
  showVal : V → String

variable {V : Type}

/-- Template-literal interpolation of the `scores` argument
(an array prints as its elements joined by commas). -/
def showScoresArg (env : MongoEnv V) : ScoresArg V → String
  | .single v => env.showVal v
  | .arr vs => String.intercalate "," (vs.map env.showVal)

/-- `normalizeScores(keys, scores)` from `add.js`. -/
def normalizeScores (env : MongoEnv V) (keys : List V) (scores : ScoresArg V) :
    Except String (Bool × ScoresArg V) :=
  match scores with
  | .single v =>
      if !env.isNumber v then
        .error ("[[error:invalid-score, " ++ env.showVal v ++ "]]")
      else
        .ok (false, .single v)
  | .arr vs =>
      if vs.length ≠ keys.length then
        .error "[[error:invalid-data]]"
      else if !(vs.all env.isNumber) then
        .error ("[[error:invalid-score, " ++ showScoresArg env (.arr vs) ++ "]]")
      else
        .ok (true, .arr vs)

/-- The score used for index `i` of the loop in `sortedSetsAdd`:
`isArrayOfScores ? normalizedScores[i] : normalizedScores`. -/
def scoresAt (scores : ScoresArg V) (i : Nat) : Option (V) :=
  match scores with
  | .single v => some v
  | .arr vs => vs[i]?

/-- The per-key score list driven by the loop of `sortedSetsAdd`
(a single score is used for every key). -/
def expandScores (keys : List V) : ScoresArg V → List V
  | .single v => keys.map (fun _ => v)
  | .arr vs => vs

/-- `module.sortedSetsAdd(keys, scores, value)`.  The `.ok` payload is the list
of bulk writes executed against the `objects` collection (the early return on
an empty `keys` array executes none). -/
def sortedSetsAdd (env : MongoEnv V) (keys : List V) (scores : ScoresArg V)
    (value : V) : Except String (List (BulkWrite V)) :=
  if keys.isEmpty then
    .ok []
  else
    match normalizeScores env keys scores with
    | .error e => .error e
    | .ok (_, normalizedScores) =>
        let valueStr := env.valueToString value
        let ops : BulkWrite V :=
          (keys.zip (expandScores keys normalizedScores)).map
            (fun p => ⟨p.1, valueStr, env.parseFloat p.2⟩)
        .ok [ops]

/-- The loop body of `sortedSetAddBulk`: queue one upsert per `[key, score,
value]` triple, throwing as soon as a score fails `utils.isNumber`. -/
def buildBulkOps (env : MongoEnv V) : List (V × V × V) → Except String (BulkWrite V)
  | [] => .ok []
  | item :: rest =>
      if !env.isNumber item.2.1 then
        .error ("[[error:invalid-score, " ++ env.showVal item.2.1 ++ "]]")
      else
        match buildBulkOps env rest with
        | .error e => .error e
        | .ok ops => .ok (⟨item.1, env.valueToString item.2.2, env.parseFloat item.2.1⟩ :: ops)

/-- `module.sortedSetAddBulk(data)`: the queued bulk is executed once, at the
end, so a throw in the loop executes nothing. -/
def sortedSetAddBulk (env : MongoEnv V) (data : List (V × V × V)) :
    Except String (List (BulkWrite V)) :=
  if data.isEmpty then
    .ok []
  else
    match buildBulkOps env data with
    | .error e => .error e
    | .ok ops => .ok [ops]

/-- The bulk writes actually executed by a call: none when it throws. -/
def executedBulks : Except String (List (BulkWrite V)) → List (BulkWrite V)
  | .ok l => l
  | .error _ => []

/-- Validity of the `scores` argument in the sense of the spec claim: a single
number, or an array of numbers of the same length as `keys`. -/
def scoresValid (env : MongoEnv V) (keys : List V) : ScoresArg V → Prop
  | .single v => env.isNumber v = true
  | .arr vs => vs.length = keys.length ∧ vs.all env.isNumber = true

theorem normalizeScores_ok (env : MongoEnv V) (keys : List V) (scores : ScoresArg V)
    (h : scoresValid env keys scores) :
    ∃ b, normalizeScores env keys scores = .ok (b, scores) := by
  cases scores with
  | single v =>
      simp only [scoresValid] at h
      exact ⟨false, by simp [normalizeScores, h]⟩
  | arr vs =>
      simp only [scoresValid] at h
      exact ⟨true, by simp [normalizeScores, h.1, h.2]⟩

theorem expandScores_length (env : MongoEnv V) (keys : List V) (scores : ScoresArg V)
    (h : scoresValid env keys scores) :
    (expandScores keys scores).length = keys.length := by
  cases scores with
  | single v => simp [expandScores]
  | arr vs => simpa [expandScores] using h.1

theorem sortedSetsAdd_ok (env : MongoEnv V) (keys : List V) (scores : ScoresArg V)
    (value : V) (hkeys : keys ≠ []) (hvalid : scoresValid env keys scores) :
    sortedSetsAdd env keys scores value =
      .ok [(keys.zip (expandScores keys scores)).map
            (fun p => ⟨p.1, env.valueToString value, env.parseFloat p.2⟩)] := by
  obtain ⟨b, hb⟩ := normalizeScores_ok env keys scores hvalid
  simp [sortedSetsAdd, List.isEmpty_iff, hkeys, hb]

theorem expandScores_getElem? (keys : List V) (scores : ScoresArg V) (i : Nat)
    (hi : i < keys.length) :
    (expandScores keys scores)[i]? = scoresAt scores i := by
  cases scores with
  | single v =>
      simp [expandScores, scoresAt, List.getElem?_replicate, hi]
  | arr vs => simp [expandScores, scoresAt]

theorem buildBulkOps_ok (env : MongoEnv V) (data : List (V × V × V))
    (h : ∀ item ∈ data, env.isNumber item.2.1 = true) :
    buildBulkOps env data =
      .ok (data.map fun item =>
        ⟨item.1, env.valueToString item.2.2, env.parseFloat item.2.1⟩) := by
  induction data with
  | nil => simp [buildBulkOps]
  | cons item rest ih =>
      have h1 := h item (by simp)
      have h2 : ∀ it ∈ rest, env.isNumber it.2.1 = true := fun it hit => h it (by simp [hit])
      simp [buildBulkOps, h1, ih h2]

/-- C1: for a non-empty `keys` array and valid scores, `sortedSetsAdd` issues
exactly one bulk write consisting of one upsert per index `i` setting the
score of the document matching `{_key: keys[i], value: String(value)}` to
`parseFloat` of the i-th score (or of the single score for every key); and
`sortedSetAddBulk` turns a non-empty data array into a single bulk write with
one such upsert per `[key, score, value]` triple. -/
theorem c1_sorted_add_one_bulk_write (env : MongoEnv V) (keys : List V)
    (scores : ScoresArg V) (value : V) (data : List (V × V × V))
    (hkeys : keys ≠ []) (hvalid : scoresValid env keys scores)
    (hdata : data ≠ []) (hdvalid : ∀ item ∈ data, env.isNumber item.2.1 = true) :
    (∃ ops : BulkWrite V,
        sortedSetsAdd env keys scores value = .ok [ops] ∧
        ops.length = keys.length ∧
        ∀ i, i < keys.length →
          ∃ k s, keys[i]? = some k ∧ scoresAt scores i = some s ∧
            ops[i]? = some ⟨k, env.valueToString value, env.parseFloat s⟩) ∧
    sortedSetAddBulk env data =
      .ok [data.map fun item =>
        ⟨item.1, env.valueToString item.2.2, env.parseFloat item.2.1⟩] := by
  have hlen := expandScores_length env keys scores hvalid
  constructor
  · refine ⟨_, sortedSetsAdd_ok env keys scores value hkeys hvalid, ?_, ?_⟩
    · simp [List.length_zip, hlen]
    · intro i hi
      refine ⟨keys.get ⟨i, hi⟩, (expandScores keys scores).get ⟨i, by omega⟩,
        by simp, ?_, ?_⟩
      · rw [← expandScores_getElem? keys scores i hi]
        simp
      · have hz : (keys.zip (expandScores keys scores))[i]? =
            some (keys.get ⟨i, hi⟩, (expandScores keys scores).get ⟨i, by omega⟩) := by
          rw [List.getElem?_zip_eq_some]
          constructor <;> simp
        simp [List.getElem?_map, hz]
  · have hd : data.isEmpty = false := by simpa [List.isEmpty_iff] using hdata
    simp [sortedSetAddBulk, hd, buildBulkOps_ok env data hdvalid]

/-- A concrete environment over `Int` values used to exercise the adapter. -/
def intEnv : MongoEnv Int where
  isNumber := fun v => decide (0 ≤ v)
  parseFloat := fun v => (v : ℚ)
  valueToString := fun v => toString v
  showVal := fun v => toString v

/-- Witness for C1 at `keys = [1, 2]`, `scores = [3, 4]`, `value = 5`,
`data = [[7, 8, 9]]`. -/
theorem c1_witness :
    (([1, 2] : List Int) ≠ [] ∧ scoresValid intEnv [1, 2] (.arr [3, 4]) ∧
        ([((7 : Int), (8 : Int), (9 : Int))] ≠ []) ∧
        (∀ item ∈ [((7 : Int), (8 : Int), (9 : Int))], intEnv.isNumber item.2.1 = true)) ∧
    ((∃ ops : BulkWrite Int,
        sortedSetsAdd intEnv [1, 2] (.arr [3, 4]) 5 = .ok [ops] ∧
        ops.length = ([1, 2] : List Int).length ∧
        ∀ i, i < ([1, 2] : List Int).length →
          ∃ k s, ([1, 2] : List Int)[i]? = some k ∧
            scoresAt (.arr [3, 4]) i = some s ∧
            ops[i]? = some ⟨k, intEnv.valueToString 5, intEnv.parseFloat s⟩) ∧
      sortedSetAddBulk intEnv [((7 : Int), (8 : Int), (9 : Int))] =
        .ok [[((7 : Int), (8 : Int), (9 : Int))].map fun item =>
          ⟨item.1, intEnv.valueToString item.2.2, intEnv.parseFloat item.2.1⟩]) :=
  ⟨⟨by decide, ⟨by decide, by decide⟩, by decide, by decide⟩,
    c1_sorted_add_one_bulk_write intEnv [1, 2] (.arr [3, 4]) 5
      [((7 : Int), (8 : Int), (9 : Int))]
      (by decide) ⟨by decide, by decide⟩ (by decide) (by decide)⟩

/-- C2: with a non-empty `keys` array, `sortedSetsAdd` throws
`[[error:invalid-data]]` when `scores` is an array of the wrong length, and
`[[error:invalid-score, <scores>]]` when the single score (or some element of
the score array) is not a number; in every failing case no bulk write is
executed. -/
theorem c2_sortedSetsAdd_validation (env : MongoEnv V) (keys : List V) (value : V)
    (hkeys : keys ≠ []) :
    (∀ vs : List V, vs.length ≠ keys.length →
        sortedSetsAdd env keys (.arr vs) value = .error "[[error:invalid-data]]" ∧
        executedBulks (sortedSetsAdd env keys (.arr vs) value) = []) ∧
    (∀ v : V, env.isNumber v = false →
        sortedSetsAdd env keys (.single v) value =
          .error ("[[error:invalid-score, " ++ showScoresArg env (.single v) ++ "]]") ∧
        executedBulks (sortedSetsAdd env keys (.single v) value) = []) ∧
    (∀ vs : List V, vs.length = keys.length → vs.all env.isNumber = false →
        sortedSetsAdd env keys (.arr vs) value =
          .error ("[[error:invalid-score, " ++ showScoresArg env (.arr vs) ++ "]]") ∧
        executedBulks (sortedSetsAdd env keys (.arr vs) value) = []) := by
  have hne : keys.isEmpty = false := by simpa [List.isEmpty_iff] using hkeys
  refine ⟨?_, ?_, ?_⟩
  · intro vs hlen
    have : sortedSetsAdd env keys (.arr vs) value = .error "[[error:invalid-data]]" := by
      simp [sortedSetsAdd, hne, normalizeScores, hlen]
    exact ⟨this, by simp [this, executedBulks]⟩
  · intro v hv
    have : sortedSetsAdd env keys (.single v) value =
        .error ("[[error:invalid-score, " ++ showScoresArg env (.single v) ++ "]]") := by
      simp [sortedSetsAdd, hne, normalizeScores, hv, showScoresArg]
    exact ⟨this, by simp [this, executedBulks]⟩
  · intro vs hlen hnum
    have : sortedSetsAdd env keys (.arr vs) value =
        .error ("[[error:invalid-score, " ++ showScoresArg env (.arr vs) ++ "]]") := by
      simp [sortedSetsAdd, hne, normalizeScores, hlen, hnum]
    exact ⟨this, by simp [this, executedBulks]⟩

/-- Witness for C2 at `keys = [1]`, `value = 5`. -/
theorem c2_witness :
    (([1] : List Int) ≠ []) ∧
    ((∀ vs : List Int, vs.length ≠ ([1] : List Int).length →
        sortedSetsAdd intEnv [1] (.arr vs) 5 = .error "[[error:invalid-data]]" ∧
        executedBulks (sortedSetsAdd intEnv [1] (.arr vs) 5) = []) ∧
      (∀ v : Int, intEnv.isNumber v = false →
        sortedSetsAdd intEnv [1] (.single v) 5 =
          .error ("[[error:invalid-score, " ++ showScoresArg intEnv (.single v) ++ "]]") ∧
        executedBulks (sortedSetsAdd intEnv [1] (.single v) 5) = []) ∧
      (∀ vs : List Int, vs.length = ([1] : List Int).length →
        vs.all intEnv.isNumber = false →
        sortedSetsAdd intEnv [1] (.arr vs) 5 =
          .error ("[[error:invalid-score, " ++ showScoresArg intEnv (.arr vs) ++ "]]") ∧
        executedBulks (sortedSetsAdd intEnv [1] (.arr vs) 5) = [])) :=
  ⟨by decide, c2_sortedSetsAdd_validation intEnv [1] 5 (by decide)⟩

end MongoSortedAdd

/-! ## `src/user/jobs.js` (the cron-job registration module)

The `jobs` object maps a job id to its registered cron job; only the cron
string of a job is observable here, so the registry is an association list
from job id to cron string.  `meta.config.digestHour` is modelled as
`Option Int`: `none` is a configured value for which `isNaN` holds. -/

namespace UserJobs

/-- `getDigesthour(dhour)`: fix the digest hour if invalid. -/
def getDigesthour : Option Int → Int
  | none => 17
  | some dhour => if dhour > 23 ∨ dhour < 0 then 0 else dhour

/-- The jobs registry: job id ↦ cron string, in insertion order. -/
abbrev JobsRegistry := List (String × String)

/-- JS object assignment `jobs[name] = new cronJob(cronString, ...)`:
replace in place when the key exists, append otherwise. -/
def setJob (jobs : JobsRegistry) (name cron : String) : JobsRegistry :=
  if jobs.any (fun e => e.1 == name) then
    jobs.map (fun e => if e.1 == name then (name, cron) else e)
  else
    jobs ++ [(name, cron)]

/-- `delete jobs[jobId]`. -/
def eraseKey (jobs : JobsRegistry) (k : String) : JobsRegistry :=
  jobs.filter (fun e => e.1 ≠ k)

/-- `User.stopJobs`: iterate over `Object.keys(jobs)` and delete each. -/
def stopJobs (jobs : JobsRegistry) : JobsRegistry :=
  (jobs.map Prod.fst).foldl eraseKey jobs

/-- `startDigestJob(name, cronString, term)` registers `jobs[name]`. -/
def startDigestJob (jobs : JobsRegistry) (name cron : String) : JobsRegistry :=
  setJob jobs name cron

/-- `startResetCleanJob(User)` registers `jobs['reset.clean']` at `0 0 * * *`. -/
def startResetCleanJob (jobs : JobsRegistry) : JobsRegistry :=
  setJob jobs "reset.clean" "0 0 * * *"

/-- The daily digest cron string `0 ${digestHour} * * *`. -/
def cronDaily (h : Int) : String := "0 " ++ toString h ++ " * * *"

/-- The weekly digest cron string `0 ${digestHour} * * 0`. -/
def cronWeekly (h : Int) : String := "0 " ++ toString h ++ " * * 0"

/-- The monthly digest cron string `0 ${digestHour} 1 * *`. -/
def cronMonthly (h : Int) : String := "0 " ++ toString h ++ " 1 * *"

/-- `User.startJobs`: compute the digest hour, stop all jobs, then register
the three digest jobs and the reset-clean job. -/
def startJobs (digestHourCfg : Option Int) (jobs : JobsRegistry) : JobsRegistry :=
  let digestHour := getDigesthour digestHourCfg
  let jobs := stopJobs jobs
  let jobs := startDigestJob jobs "digest.daily" (cronDaily digestHour)
  let jobs := startDigestJob jobs "digest.weekly" (cronWeekly digestHour)
  let jobs := startDigestJob jobs "digest.monthly" (cronMonthly digestHour)
  startResetCleanJob jobs

theorem foldl_eraseKey_nil (ks : List String) (l : JobsRegistry)
    (h : ∀ e ∈ l, e.1 ∈ ks) : ks.foldl eraseKey l = [] := by
  induction ks generalizing l with
  | nil =>
      cases l with
      | nil => rfl
      | cons e es => exact absurd (h e (by simp)) (by simp)
  | cons k ks ih =>
      simp only [List.foldl_cons]
      refine ih (eraseKey l k) ?_
      intro e he
      simp only [eraseKey, List.mem_filter, decide_eq_true_eq] at he
      have := h e he.1
      simp only [List.mem_cons] at this
      exact this.resolve_left he.2

/-- `User.stopJobs` empties the registry. -/
theorem stopJobs_eq_nil (jobs : JobsRegistry) : stopJobs jobs = [] :=
  foldl_eraseKey_nil (jobs.map Prod.fst) jobs
    (fun e he => List.mem_map.mpr ⟨e, he, rfl⟩)

/-- The normal form of the registry after any `startJobs` call. -/
theorem startJobs_eq (cfg : Option Int) (l : JobsRegistry) :
    startJobs cfg l =
      [("digest.daily", cronDaily (getDigesthour cfg)),
       ("digest.weekly", cronWeekly (getDigesthour cfg)),
       ("digest.monthly", cronMonthly (getDigesthour cfg)),
       ("reset.clean", "0 0 * * *")] := by
  rw [startJobs, stopJobs_eq_nil l]
  rfl

/-- C5: every invocation of `User.startJobs` first terminates all previously
registered jobs via `User.stopJobs` (the registry is emptied) and then
registers exactly the four cron jobs — daily digest at `0 H * * *`, weekly at
`0 H * * 0`, monthly at `0 H 1 * *` (`H` the fixed digest hour) and
reset-clean at `0 0 * * *` — so the registry afterwards holds exactly these
four entries and repeated calls never accumulate duplicates. -/
theorem c5_startJobs_exactly_four (cfg : Option Int) (jobs : JobsRegistry) :
    startJobs cfg jobs =
      [("digest.daily", cronDaily (getDigesthour cfg)),
       ("digest.weekly", cronWeekly (getDigesthour cfg)),
       ("digest.monthly", cronMonthly (getDigesthour cfg)),
       ("reset.clean", "0 0 * * *")] ∧
    startJobs cfg (startJobs cfg jobs) = startJobs cfg jobs :=
  ⟨startJobs_eq cfg jobs, by
    rw [startJobs_eq cfg (startJobs cfg jobs), startJobs_eq cfg jobs]⟩

/-- C10: `getDigesthour` is total and always yields an hour in `0..23`: `17`
when the configured digest hour is not a number, `0` when it is below `0` or
above `23`, the configured value otherwise; hence the digest schedules built
by `User.startJobs` always use an hour in range. -/
theorem c10_getDigesthour_valid_hour (cfg : Option Int) :
    getDigesthour none = 17 ∧
    (∀ d : Int, d < 0 ∨ d > 23 → getDigesthour (some d) = 0) ∧
    (∀ d : Int, 0 ≤ d → d ≤ 23 → getDigesthour (some d) = d) ∧
    (0 ≤ getDigesthour cfg ∧ getDigesthour cfg ≤ 23) ∧
    (∃ h : Int, 0 ≤ h ∧ h ≤ 23 ∧ ∀ jobs : JobsRegistry,
      startJobs cfg jobs =
        [("digest.daily", cronDaily h), ("digest.weekly", cronWeekly h),
         ("digest.monthly", cronMonthly h), ("reset.clean", "0 0 * * *")]) := by
  have hrange : ∀ c : Option Int, 0 ≤ getDigesthour c ∧ getDigesthour c ≤ 23 := by
    intro c
    cases c with
    | none => constructor <;> norm_num [getDigesthour]
    | some d =>
        by_cases h : d > 23 ∨ d < 0
        · simp only [getDigesthour, if_pos h]
          constructor <;> norm_num
        · push_neg at h
          simp only [getDigesthour]
          rw [if_neg (by push_neg; exact h)]
          exact ⟨h.2, h.1⟩
  refine ⟨rfl, ?_, ?_, hrange cfg, ?_⟩
  · intro d hd
    simp only [getDigesthour, if_pos (Or.symm hd)]
  · intro d h0 h23
    simp only [getDigesthour]
    rw [if_neg]
    push_neg
    exact ⟨h23, h0⟩
  · exact ⟨getDigesthour cfg, (hrange cfg).1, (hrange cfg).2,
      fun jobs => startJobs_eq cfg jobs⟩

/-- Witness for C10 at the configurations `some 30` (out of range) and
`some 5` (in range). -/
theorem c10_witness :
    ((30 : Int) < 0 ∨ (30 : Int) > 23) ∧ getDigesthour (some 30) = 0 ∧
    (0 ≤ (5 : Int) ∧ (5 : Int) ≤ 23) ∧ getDigesthour (some 5) = 5 ∧
    (0 ≤ getDigesthour (some 30) ∧ getDigesthour (some 30) ≤ 23) :=
  ⟨by decide,
   (c10_getDigesthour_valid_hour (some 30)).2.1 30 (by decide),
   ⟨by decide, by decide⟩,
   (c10_getDigesthour_valid_hour (some 5)).2.2.1 5 (by decide) (by decide),
   (c10_getDigesthour_valid_hour (some 30)).2.2.2.1⟩

end UserJobs

/-! ## `User.isReadyToPost` standard rate limit -/

namespace PostDelay

/-- Modelled from the spec: the implementation of `User.isReadyToPost` /
`checkPostDelays` is not among the source files (only its tests are).  Per the
spec's error-handling section (errors are thrown exceptions carrying
translatable keys such as `[[error:too-many-posts, 10]]`) and the tests in
`test/posts/posts.js`, when `meta.config.postDelay` is set and the user's
`lastposttime` is within `postDelay` seconds of now, the check throws
`[[error:too-many-posts, <postDelay>]]`.  Times are in milliseconds. -/
def checkStandardPostDelay (postDelay : Nat) (now lastposttime : Nat) :
    Except String Unit :=
  if postDelay ≠ 0 ∧ now - lastposttime < postDelay * 1000 then
    .error ("[[error:too-many-posts, " ++ toString postDelay ++ "]]")
  else
    .ok ()

/-- C4: a user with `lastposttime` set who posts again within
`meta.config.postDelay` seconds is rejected with exactly the message
`[[error:too-many-posts, <postDelay>]]`. -/
theorem c4_too_many_posts (postDelay now lastposttime : Nat)
    (hset : 0 < postDelay) (hwithin : now - lastposttime < postDelay * 1000) :
    checkStandardPostDelay postDelay now lastposttime =
      .error ("[[error:too-many-posts, " ++ toString postDelay ++ "]]") := by
  simp [checkStandardPostDelay, Nat.pos_iff_ne_zero.mp hset, hwithin]

/-- Witness for C4 at `postDelay = 10`: the message is exactly
`[[error:too-many-posts, 10]]`. -/
theorem c4_witness :
    0 < 10 ∧ 5000 - 0 < 10 * 1000 ∧
    checkStandardPostDelay 10 5000 0 = .error "[[error:too-many-posts, 10]]" :=
  ⟨by decide, by decide, c4_too_many_posts 10 5000 0 (by decide) (by decide)⟩

end PostDelay

/-! ## `src/user/picture.js` -/

namespace UserPicture

/-- `getAllowedImageTypes()`. -/
def getAllowedImageTypes : List String :=
  ["image/png", "image/jpeg", "image/bmp", "image/gif"]

/-- `data.file` for `uploadCroppedPictureFile`: size in bytes, MIME type
(`""` models a falsy `type`), temp path. -/
structure UploadedFile where
  size : Nat
  type : String
  path : String

/-- File-system / profile side effects of the upload pipeline, in order. -/
inductive PicEffect where
  | convertToPNG (path : String)
  | resizeImage (path : String)
  | uploadImage (filename : String)
  | deleteCurrentPicture
  | updateProfile
deriving DecidableEq

/-- Configuration and oracles used by `uploadCroppedPictureFile`. -/
structure PictureEnv where
  allowProfileImageUploads : Bool
  maximumProfileImageSize : Nat
  typeToExtension : String → Option String
  convertToPNG : String → String
  generateFilename : String → String

/-- `uploadCroppedPictureFile(User, data)`: the `.ok` payload is the list of
effects performed after validation (a throw performs none). -/
def uploadCroppedPictureFile (env : PictureEnv) (userPhoto : UploadedFile) :
    Except String (List PicEffect) :=
  if !env.allowProfileImageUploads then
    .error "[[error:profile-image-uploads-disabled]]"
  else if userPhoto.size > env.maximumProfileImageSize * 1024 then
    .error ("[[error:file-too-big, " ++ toString env.maximumProfileImageSize ++ "]]")
  else if userPhoto.type = "" ∨ ¬ getAllowedImageTypes.contains userPhoto.type then
    .error "[[error:invalid-image]]"
  else
    match env.typeToExtension userPhoto.type with
    | none => .error "[[error:invalid-image-extension]]"
    | some ext =>
        let newPath := env.convertToPNG userPhoto.path
        .ok [.convertToPNG userPhoto.path, .resizeImage newPath,
             .uploadImage (env.generateFilename ext), .deleteCurrentPicture,
             .updateProfile]

/-- The effects actually performed by a call: none when it throws. -/
def picEffects : Except String (List PicEffect) → List PicEffect
  | .ok l => l
  | .error _ => []

/-- The character class `[\d.]`. -/
def isDigitOrDot (c : Char) : Bool := c.isDigit || c = '.'

/-- The JS regex class `\s` (ECMA-262 WhiteSpace and LineTerminator). -/
def isJsWhitespace (c : Char) : Bool :=
  c = ' ' || c = '\t' || c = '\n' || c = '\r' || c.val = 0x0B || c.val = 0x0C ||
  c.val = 0x00A0 || c.val = 0x1680 || (0x2000 ≤ c.val && c.val ≤ 0x200A) ||
  c.val = 0x2028 || c.val = 0x2029 || c.val = 0x202F || c.val = 0x205F ||
  c.val = 0x3000 || c.val = 0xFEFF

/-- The test `/^[\d.]+%\s[\d.]+%$/.test(position)`.  Since `%` is neither a
digit nor a dot, each `[\d.]+` can only match the maximal digit-or-dot run
before the following `%`, so a greedy span is exact. -/
def coverPositionMatches (s : String) : Bool :=
  match s.toList.span isDigitOrDot with
  | (d1, '%' :: w :: r2) =>
      if d1.isEmpty then false
      else if isJsWhitespace w then
        match r2.span isDigitOrDot with
        | (d2, ['%']) => !d2.isEmpty
        | _ => false
      else false
  | _ => false

/-- `updateCoverPosition(User, uid, position)`: the `.ok` payload is the list
of user fields written. -/
def updateCoverPosition (position : String) :
    Except String (List (String × String)) :=
  if !coverPositionMatches position then
    .error "[[error:invalid-data]]"
  else
    .ok [("cover:position", position)]

/-- The user-field writes performed by a call: none when it throws. -/
def coverWrites : Except String (List (String × String)) → List (String × String)
  | .ok l => l
  | .error _ => []

/-- C7: profile-image uploads are validated by configuration before any file
is written — `uploadCroppedPictureFile` throws
`[[error:profile-image-uploads-disabled]]` when uploads are off,
`[[error:file-too-big, <max>]]` when the file exceeds
`maximumProfileImageSize` KiB, `[[error:invalid-image]]` when the MIME type
is not an allowed image type — and `updateCoverPosition` throws
`[[error:invalid-data]]` for every position string not matching
`^[\d.]+%\s[\d.]+%$`; in each failing case no effect is performed. -/
theorem c7_upload_validation (env : PictureEnv) (photo : UploadedFile) :
    (env.allowProfileImageUploads = false →
      uploadCroppedPictureFile env photo =
        .error "[[error:profile-image-uploads-disabled]]" ∧
      picEffects (uploadCroppedPictureFile env photo) = []) ∧
    (env.allowProfileImageUploads = true →
      photo.size > env.maximumProfileImageSize * 1024 →
      uploadCroppedPictureFile env photo =
        .error ("[[error:file-too-big, " ++ toString env.maximumProfileImageSize ++ "]]") ∧
      picEffects (uploadCroppedPictureFile env photo) = []) ∧
    (env.allowProfileImageUploads = true →
      photo.size ≤ env.maximumProfileImageSize * 1024 →
      (photo.type = "" ∨ ¬ getAllowedImageTypes.contains photo.type) →
      uploadCroppedPictureFile env photo = .error "[[error:invalid-image]]" ∧
      picEffects (uploadCroppedPictureFile env photo) = []) ∧
    (∀ position : String, coverPositionMatches position = false →
      updateCoverPosition position = .error "[[error:invalid-data]]" ∧
      coverWrites (updateCoverPosition position) = []) := by
  refine ⟨?_, ?_, ?_, ?_⟩
  · intro h
    have : uploadCroppedPictureFile env photo =
        .error "[[error:profile-image-uploads-disabled]]" := by
      simp [uploadCroppedPictureFile, h]
    exact ⟨this, by simp [this, picEffects]⟩
  · intro hallow hsize
    have : uploadCroppedPictureFile env photo =
        .error ("[[error:file-too-big, " ++
          toString env.maximumProfileImageSize ++ "]]") := by
      simp [uploadCroppedPictureFile, hallow, hsize]
    exact ⟨this, by simp [this, picEffects]⟩
  · intro hallow hsize htype
    have : uploadCroppedPictureFile env photo = .error "[[error:invalid-image]]" := by
      unfold uploadCroppedPictureFile
      rw [if_neg (by simp [hallow]), if_neg (Nat.not_lt.mpr hsize), if_pos htype]
    exact ⟨this, by simp [this, picEffects]⟩
  · intro position h
    have : updateCoverPosition position = .error "[[error:invalid-data]]" := by
      simp [updateCoverPosition, h]
    exact ⟨this, by simp [this, coverWrites]⟩

/-- A concrete environment exercising the upload validation. -/
def picEnv : PictureEnv where
  allowProfileImageUploads := true
  maximumProfileImageSize := 256
  typeToExtension := fun t => if t = "image/png" then some ".png" else none
  convertToPNG := fun p => p
  generateFilename := fun e => "avatar" ++ e

/-- Witness for C7: an oversized file and a malformed cover position. -/
theorem c7_witness :
    (picEnv.allowProfileImageUploads = true ∧
      (⟨300000, "image/png", "tmp"⟩ : UploadedFile).size >
        picEnv.maximumProfileImageSize * 1024 ∧
      uploadCroppedPictureFile picEnv ⟨300000, "image/png", "tmp"⟩ =
        .error "[[error:file-too-big, 256]]") ∧
    (coverPositionMatches "abc" = false ∧
      updateCoverPosition "abc" = .error "[[error:invalid-data]]") :=
  ⟨⟨rfl, by decide,
    ((c7_upload_validation picEnv ⟨300000, "image/png", "tmp"⟩).2.1 rfl
      (by decide)).1⟩,
   ⟨by decide,
    ((c7_upload_validation picEnv ⟨300000, "image/png", "tmp"⟩).2.2.2 "abc"
      (by decide)).1⟩⟩

end UserPicture

/-! ## The groups creation module (`Groups.create` / `Groups.validateGroupName`)

`data.name` is an arbitrary JS value, modelled by `JsVal`.  The helpers the
module calls that live outside this file (`Groups.isPrivilegeGroup`,
`slugify`, `meta.slugTaken`, `db.isSortedSetMember`) are oracle fields of
`GroupsEnv`; `meta.config.maximumGroupNameLength` is a `Nat`. -/

namespace GroupsCreate

/-- A JS value for the `name` argument. -/
inductive JsVal where
  | str (s : String)
  | num (n : Int)
  | bool (b : Bool)
  | nullish
deriving DecidableEq

/-- JS truthiness (`!name` is the negation of this). -/
def truthy : JsVal → Bool
  | .str s => !s.isEmpty
  | .num n => n != 0
  | .bool b => b
  | .nullish => false

/-- `typeof name === 'string'`. -/
def isStr : JsVal → Bool
  | .str _ => true
  | _ => false

/-- Oracles and configuration for the groups creation module. -/
structure GroupsEnv where
  isPrivilegeGroup : String → Bool
  slugify : String → String
  maximumGroupNameLength : Nat
  slugTaken : String → Bool
  isSortedSetMemberCreatetime : String → Bool

/-- `name.includes(c)` for a single-character needle. -/
def strContains (s : String) (c : Char) : Bool := s.data.contains c

/-- The string payload of a JS value, when it is a string. -/
def asString : JsVal → Option String
  | .str s => some s
  | _ => none

/-- The checks of `Groups.validateGroupName` that run once `name` is known to
be a truthy string. -/
def validateStringGroupName (env : GroupsEnv) (s : String) : Except String Unit :=
  if env.isPrivilegeGroup s = false ∧ env.maximumGroupNameLength < s.length then
    .error "[[error:group-name-too-long]]"
  else if s = "guests" ∨ (env.isPrivilegeGroup s = false ∧ strContains s ':' = true) then
    .error "[[error:invalid-group-name]]"
  else if strContains s '/' = true ∨ env.slugify s = "" then
    .error "[[error:invalid-group-name]]"
  else
    .ok ()

/-- `Groups.validateGroupName(name)`. -/
def validateGroupName (env : GroupsEnv) (name : JsVal) : Except String Unit :=
  if !truthy name then
    .error "[[error:group-name-too-short]]"
  else
    (asString name).elim (.error "[[error:invalid-group-name]]")
      (validateStringGroupName env)

/-- `validateGroupCreation(data)`: name validation, then the slug / privilege
group existence check. -/
def validateGroupCreation (env : GroupsEnv) (name : JsVal) : Except String Unit :=
  (validateGroupName env name).bind (fun _ =>
    (asString name).elim (.ok ())
      (fun s =>
        if env.slugTaken s || (env.isPrivilegeGroup s && env.isSortedSetMemberCreatetime s) then
          .error "[[error:group-already-exists]]"
        else
          .ok ()))

/-- Database writes performed by `processGroupCreation`, in order. -/
inductive GroupEffect where
  | sortedSetAdd (key member : String)
  | setObject (key : String)
  | setAdd (key : String)
  | sortedSetAddBulkVisible
  | setObjectField (key field : String)
deriving DecidableEq

/-- The `data` fields driving the persistence steps (the pure `parseInt`
parsing of `prepareGroupConfig` is collapsed to its boolean results). -/
structure CreateData where
  name : JsVal
  hasOwnerUid : Bool
  isHidden : Bool
  isSystem : Bool

/-- `processGroupCreation(data)` (the body of `Groups.create`): validation
first, then the database writes; the `.ok` payload is the list of writes, and
a throw performs none. -/
def processGroupCreation (env : GroupsEnv) (d : CreateData) :
    Except String (List GroupEffect) :=
  (validateGroupCreation env d.name).bind (fun _ =>
    (asString d.name).elim (.ok [])
      (fun s =>
        let effs := [GroupEffect.sortedSetAdd "groups:createtime" s,
                     GroupEffect.setObject ("group:" ++ s)]
        let effs := effs ++
          (if d.hasOwnerUid then
            [GroupEffect.setAdd ("group:" ++ s ++ ":owners"),
             GroupEffect.sortedSetAdd ("group:" ++ s ++ ":members") s]
          else [])
        let effs := effs ++
          (if !d.isHidden && !d.isSystem then [GroupEffect.sortedSetAddBulkVisible] else [])
        let effs := effs ++
          (if !env.isPrivilegeGroup s then
            [GroupEffect.setObjectField "groupslug:groupname" (env.slugify s)]
          else [])
        .ok effs))

/-- `Groups.create(data)` forwards to `processGroupCreation`. -/
def create (env : GroupsEnv) (d : CreateData) : Except String (List GroupEffect) :=
  processGroupCreation env d

/-- The writes actually performed by a call: none when it throws. -/
def groupWrites : Except String (List GroupEffect) → List GroupEffect
  | .ok l => l
  | .error _ => []

/-- A concrete environment for the counterexample and witness. -/
def gEnv : GroupsEnv where
  isPrivilegeGroup := fun s => s = "cid:priv"
  slugify := fun s => s
  maximumGroupNameLength := 255
  slugTaken := fun s => s = "taken"
  isSortedSetMemberCreatetime := fun _ => false

/-- C6 counterexample: the claim says `validateGroupName` throws
`[[error:invalid-group-name]]` for a non-string name, but for the falsy
non-string name `0` the `!name` check fires first and the thrown message is
`[[error:group-name-too-short]]`. -/
theorem c6_counterexample :
    isStr (JsVal.num 0) = false ∧
    validateGroupName gEnv (.num 0) = .error "[[error:group-name-too-short]]" ∧
    validateGroupName gEnv (.num 0) ≠ .error "[[error:invalid-group-name]]" := by
  refine ⟨rfl, rfl, ?_⟩
  intro h
  exact (by decide :
    ("[[error:group-name-too-short]]" : String) ≠ "[[error:invalid-group-name]]")
    (Except.error.inj h)

/-- C6 (amended): the checks of `Groups.validateGroupName` apply in order —
`[[error:group-name-too-short]]` for any falsy name (the empty string
included), `[[error:invalid-group-name]]` for a remaining (truthy) non-string
name, `[[error:group-name-too-long]]` for a remaining non-privilege-group
name longer than `maximumGroupNameLength`, and `[[error:invalid-group-name]]`
for the name `guests` or a remaining non-privilege-group name containing `:`,
and for a remaining name containing `/` or with an empty slug — and
`Groups.create` throws `[[error:group-already-exists]]` when the validated
name's slug is taken or a privilege group of that name is registered in
`groups:createtime`; in every failing case no group data is persisted. -/
theorem c6_group_validation (env : GroupsEnv) :
    (∀ name : JsVal, truthy name = false →
      validateGroupName env name = .error "[[error:group-name-too-short]]") ∧
    (∀ name : JsVal, truthy name = true → isStr name = false →
      validateGroupName env name = .error "[[error:invalid-group-name]]") ∧
    (∀ s : String, truthy (.str s) = true →
      env.isPrivilegeGroup s = false → env.maximumGroupNameLength < s.length →
      validateGroupName env (.str s) = .error "[[error:group-name-too-long]]") ∧
    (∀ s : String, truthy (.str s) = true →
      ¬(env.isPrivilegeGroup s = false ∧ env.maximumGroupNameLength < s.length) →
      (s = "guests" ∨ (env.isPrivilegeGroup s = false ∧ strContains s ':' = true)) →
      validateGroupName env (.str s) = .error "[[error:invalid-group-name]]") ∧
    (∀ s : String, truthy (.str s) = true →
      ¬(env.isPrivilegeGroup s = false ∧ env.maximumGroupNameLength < s.length) →
      ¬(s = "guests" ∨ (env.isPrivilegeGroup s = false ∧ strContains s ':' = true)) →
      (strContains s '/' = true ∨ env.slugify s = "") →
      validateGroupName env (.str s) = .error "[[error:invalid-group-name]]") ∧
    (∀ s : String, validateGroupName env (.str s) = .ok () →
      (env.slugTaken s = true ∨
        (env.isPrivilegeGroup s = true ∧ env.isSortedSetMemberCreatetime s = true)) →
      ∀ d : CreateData, d.name = .str s →
        create env d = .error "[[error:group-already-exists]]") ∧
    (∀ d : CreateData, ∀ e : String, create env d = .error e →
      groupWrites (create env d) = []) := by
  refine ⟨?_, ?_, ?_, ?_, ?_, ?_, ?_⟩
  · intro name h
    rw [validateGroupName, if_pos (by simp [h])]
  · intro name ht hs
    cases name with
    | str s => simp [isStr] at hs
    | num n => rw [validateGroupName, if_neg (by simp [ht])]; rfl
    | bool b => rw [validateGroupName, if_neg (by simp [ht])]; rfl
    | nullish => simp [truthy] at ht
  · intro s ht hp hl
    rw [validateGroupName, if_neg (by simp [ht])]
    show validateStringGroupName env s = _
    rw [validateStringGroupName, if_pos ⟨hp, hl⟩]
  · intro s ht h1 h2
    rw [validateGroupName, if_neg (by simp [ht])]
    show validateStringGroupName env s = _
    rw [validateStringGroupName, if_neg h1, if_pos h2]
  · intro s ht h1 h2 h3
    rw [validateGroupName, if_neg (by simp [ht])]
    show validateStringGroupName env s = _
    rw [validateStringGroupName, if_neg h1, if_neg h2, if_pos h3]
  · intro s hok hex d hd
    have hvc : validateGroupCreation env (.str s) =
        .error "[[error:group-already-exists]]" := by
      rw [validateGroupCreation, hok]
      rcases hex with h | h
      · simp [Except.bind, asString, h]
      · simp [Except.bind, asString, h.1, h.2]
    rw [create, processGroupCreation, hd, hvc]
    rfl
  · intro d e h
    simp [h, groupWrites]

/-- Witness for the amended C6 at the concrete environment `gEnv`. -/
theorem c6_witness :
    (truthy (.str "") = false ∧
      validateGroupName gEnv (.str "") = .error "[[error:group-name-too-short]]") ∧
    (truthy (.num 5) = true ∧ isStr (.num 5) = false ∧
      validateGroupName gEnv (.num 5) = .error "[[error:invalid-group-name]]") ∧
    (validateGroupName gEnv (.str "guests") = .error "[[error:invalid-group-name]]") ∧
    (validateGroupName gEnv (.str "taken") = .ok () ∧ gEnv.slugTaken "taken" = true ∧
      create gEnv ⟨.str "taken", false, false, false⟩ =
        .error "[[error:group-already-exists]]") :=
  ⟨⟨by decide, (c6_group_validation gEnv).1 (.str "") (by decide)⟩,
   ⟨by decide, by decide,
    (c6_group_validation gEnv).2.1 (.num 5) (by decide) (by decide)⟩,
   (c6_group_validation gEnv).2.2.2.1 "guests" (by decide)
     (by decide) (Or.inl rfl),
   ⟨rfl, by decide,
    (c6_group_validation gEnv).2.2.2.2.2.1 "taken" rfl (Or.inl (by decide))
      ⟨.str "taken", false, false, false⟩ rfl⟩⟩

end GroupsCreate

/-! ## `src/user/invite.js` (second module: `User.auth` session management)

Session ids are an abstract type `V`.  The session sorted set
`uid:<uid>:sessions` is a list in score order (oldest first); the session
store is an oracle `valid : V → Bool` saying whether a stored session still
belongs to the user.  JS values that may be an array or a number (the result
of `Array.prototype.push`, which returns the new length) are modelled by
`JsArg`. -/

namespace UserSessions

variable {V : Type} [DecidableEq V]

/-- A JS value that is either an array of session ids or a number. -/
inductive JsArg (V : Type) where
  | arr (l : List V)
  | num (n : Nat)

/-- `.length` of a `JsArg`: a number has no `length` property, so the access
yields `undefined` (`none`). -/
def jsLength : JsArg V → Option Nat
  | .arr l => some l.length
  | .num _ => none

/-- JS `x > k` where `x` may be `undefined`: a comparison with `undefined`
is always false. -/
def jsGtNum : Option Nat → Int → Bool
  | none, _ => false
  | some m, k => (m : Int) > k

/-- `cleanExpiredSessions(uid)`: remove the sids the session store no longer
maps to this user, returning the active sids and the cleaned set. -/
def cleanExpiredSessions (valid : V → Bool) (st : List V) : List V × List V :=
  (st.filter valid, st.filter valid)

/-- `revokeSessionsAboveThreshold(activeSids, uid, User)`: revoke the oldest
surplus sessions when the threshold is configured and exceeded.  Returns the
sids passed to `User.auth.revokeSession` (none when the guard fails). -/
def revokeSessionsAboveThreshold (maxUserSessions : Int) (activeSids : JsArg V) :
    List V :=
  if maxUserSessions > 0 ∧ jsGtNum (jsLength activeSids) maxUserSessions = true then
    match activeSids with
    | .arr l => l.take (l.length - maxUserSessions.toNat)
    | .num _ => []
  else
    []

/-- The observable result of `addSession`. -/
structure AddSessionResult (V : Type) where
  sessions : List V
  revoked : List V
deriving DecidableEq

/-- `addSession(uid, sessionId, User)`: clean expired sessions, add the new
session with the current timestamp as score, then call
`revokeSessionsAboveThreshold(activeSids.push(sessionId), uid, User)` —
note that `push` returns the array's new length, a number. -/
def addSession (maxUserSessions : Int) (valid : V → Bool) (st : List V)
    (uidPositive : Bool) (sessionId : V) : AddSessionResult V :=
  if !uidPositive then
    ⟨st, []⟩
  else
    let activeSids := (cleanExpiredSessions valid st).1
    let cleaned := (cleanExpiredSessions valid st).2
    let afterAdd := cleaned.filter (fun sid => sid ≠ sessionId) ++ [sessionId]
    let pushResult : JsArg V := .num (activeSids.length + 1)
    let revoked := revokeSessionsAboveThreshold maxUserSessions pushResult
    ⟨afterAdd.filter (fun sid => ¬ sid ∈ revoked), revoked⟩

/-- C9 (code bug): the claim — after `addSession` the tracked session count
never exceeds a positive `maxUserSessions` because the surplus oldest
sessions are passed to `revokeSession` — is the evident intent of
`revokeSessionsAboveThreshold` (which slices an array), but `addSession`
passes it `activeSids.push(sessionId)`, the numeric new length, whose
`.length` is `undefined`, so the threshold comparison is always false: no
session is ever revoked, and with `maxUserSessions = 1` and one existing
session a second `addSession` leaves two.  The helper applied to the actual
array would have revoked the surplus. -/
theorem c9_addSession_never_revokes :
    (∀ (maxUserSessions : Int) (valid : String → Bool) (st : List String)
        (up : Bool) (sid : String),
      (addSession maxUserSessions valid st up sid).revoked = []) ∧
    (addSession 1 (fun _ => true) ["s1"] true "s2").sessions = ["s1", "s2"] ∧
    (addSession 1 (fun _ => true) ["s1"] true "s2").revoked = [] ∧
    (addSession 1 (fun _ => true) ["s1"] true "s2").sessions.length > 1 ∧
    revokeSessionsAboveThreshold (V := String) 1 (.arr ["s1", "s2"]) = ["s1"] := by
  refine ⟨?_, by decide, by decide, by decide, by decide⟩
  intro maxUserSessions valid st up sid
  cases up with
  | false => rfl
  | true =>
      simp only [addSession, Bool.not_true, Bool.false_eq_true, if_false,
        revokeSessionsAboveThreshold, jsLength, jsGtNum]
      simp

end UserSessions

/-! ## `src/controllers/mods.js` (the live code: `flags.list`, `flags.detail`,
`postQueue`)

Each controller wraps its body in an async IIFE whose catch runs
`done ? done(err) : console.error(err)`, and on success ends with
`done && done()`.  The body (domain calls and rendering) is abstracted as an
`Except E Unit`; the observable outcome is which continuation the wrapper
takes. -/

namespace ModsControllers

/-- Observable outcome of one controller invocation. -/
inductive CatchResult (E : Type) where
  | completed (doneCalled : Bool)
  | errorToDone (e : E)
  | errorToConsole (e : E)
deriving DecidableEq

/-- The shared IIFE try/catch wrapper: on success `done && done()`, on a
thrown error `done ? done(err) : console.error(err)`. -/
def runCatchWrapper {E : Type} (donePresent : Bool) (body : Except E Unit) :
    CatchResult E :=
  match body with
  | .ok _ => .completed donePresent
  | .error e => if donePresent then .errorToDone e else .errorToConsole e

/-- 0-based position of the `done` parameter of
`modsController.flags.list = function(req, res, done)`. -/
def flagsListDoneIndex : Nat := 2

/-- 0-based position of the `done` parameter of
`modsController.flags.detail = function(req, res, next, done)`. -/
def flagsDetailDoneIndex : Nat := 3

/-- 0-based position of the `done` parameter of
`modsController.postQueue = function(req, res, next, done)`. -/
def postQueueDoneIndex : Nat := 3

/-- Modelled from the spec: the route registration that invokes these
controllers is not among the source files.  Per the spec's framing
(controllers are web-framework request handlers whose errors are passed to
the framework's error-handling continuation), the framework calls a handler
with three arguments — request, response, next — so a parameter is bound
exactly when its index is below three, and an unbound parameter is
`undefined`. -/
def expressArgCount : Nat := 3

/-- Whether the `done` parameter is bound under the framework's invocation. -/
def donePresentUnderExpress (doneIndex : Nat) : Bool :=
  doneIndex < expressArgCount

/-- One framework invocation of a controller with the given `done` position. -/
def runModsController {E : Type} (doneIndex : Nat) (body : Except E Unit) :
    CatchResult E :=
  runCatchWrapper (donePresentUnderExpress doneIndex) body

/-- C3 counterexample: an error thrown inside `flags.detail` under the
framework's three-argument invocation is written to `console.error`, not
passed to the error-handling continuation. -/
theorem c3_counterexample :
    runModsController (E := String) flagsDetailDoneIndex (.error "boom") =
      .errorToConsole "boom" ∧
    runModsController (E := String) flagsDetailDoneIndex (.error "boom") ≠
      .errorToDone "boom" ∧
    runModsController (E := String) postQueueDoneIndex (.error "boom") =
      .errorToConsole "boom" := by
  refine ⟨rfl, ?_, rfl⟩
  intro h
  cases h

/-- C3 (amended): `flags.list` takes the continuation as its third parameter,
so under the framework's three-argument invocation every thrown error is
passed to it; `flags.detail` and `postQueue` take `done` as a fourth
parameter, which the framework never supplies, so their catch blocks fall
back to `console.error` — the error reaches the continuation only when a
caller passes a fourth argument explicitly. -/
theorem c3_error_routing {E : Type} :
    (∀ e : E, runModsController flagsListDoneIndex (.error e) = .errorToDone e) ∧
    (∀ e : E, runModsController flagsDetailDoneIndex (.error e) = .errorToConsole e) ∧
    (∀ e : E, runModsController postQueueDoneIndex (.error e) = .errorToConsole e) ∧
    (∀ e : E, runCatchWrapper true (.error e) = .errorToDone e) ∧
    (∀ (e : E) (body : Except E Unit), runCatchWrapper false body ≠ .errorToDone e) := by
  refine ⟨fun e => rfl, fun e => rfl, fun e => rfl, fun e => rfl, ?_⟩
  intro e body h
  cases body with
  | ok u => cases h
  | error e2 =>
      simp only [runCatchWrapper, Bool.false_eq_true, if_false] at h
      cases h

end ModsControllers

/-! ## `User.search`: the two implementations

`src/user/search.js` (helper-decomposed `filterAndSortUids`) and the second
copy of the module (inline `filterAndSortUids`, `resolveUidsFromSearchBy`,
`applyPagniation`, `attachBlockFlags`) are embedded separately, over a shared
environment of oracles for the JS primitives and async domain calls.  JS
values (uids, queries, field values) are an abstract type `V`.  The
`timing` field of the result (wall-clock measurement) is outside the model;
the compared outputs are the uids, `matchCount`, `pageCount` and `users`,
exactly the fields the refinement claim names.

Definitions verbatim-identical in the two source files (`filterFnMap`,
`filterFieldMap`, `sortUsers`, `findUids` — collapsed into the search-method
oracle —, `searchByIP`, the final `users` filter, and the `ap` field mapping)
are embedded once, here, and used by both pipelines. -/

namespace UserSearch

variable {V : Type} [DecidableEq V]

/-- A user record as returned by `getUsersFields` / `getUsers`: its uid, its
other fields (`user[f]`), and the mutable `isBlocked` flag. -/
structure UserRec (V : Type) where
  uid : V
  fields : String → V
  isBlocked : Bool

/-- `activitypub.actors.assert([...])` result: `true`, an array of actors
(carried as their ids), or anything else. -/
inductive AssertResult (V : Type) where
  | isTrue
  | arr (ids : List V)
  | other

/-- `data.filters`: absent, a single (non-array) value, or an array. -/
inductive FiltersArg where
  | undef
  | str (s : String)
  | arr (l : List String)

/-- Oracles for JS primitives, configuration and async domain calls. -/
structure SearchEnv (V : Type) where
  truthy : V → Bool
  emptyStr : V
  zeroV : V
  undefV : V
  parseIntTruthy : V → Bool
  isNumber : V → Bool
  numVal : V → Int
  ltV : V → V → Bool
  gtV : V → V → Bool
  uidPositive : V → Bool
  isUri : V → Bool
  isWebfinger : V → Option V
  resolveLocalIdUser : V → Option V
  assertActors : V → AssertResult V
  getUidByUserslug : V → V
  ipRangeUids : V → List V
  defaultFindUids : V → String → Option Int → List V
  isMembers : List V → String → List Bool
  bannedUsersGroup : String
  getUsersFields : List V → List String → List (UserRec V)
  hookUsersSearch : List V → V → List V
  getUsers : List V → V → List (Option (UserRec V))
  blocksList : V → List V
  activitypubEnabled : Bool
  userSearchResultsPerPage : Int
  statusOffline : V → Bool
  lastonlineRecent : V → Bool
  parseIntPos : V → Bool

/-- The `data` argument of `User.search`. -/
structure SearchData (V : Type) where
  query : V
  searchBy : Option String
  page : Option Int
  uid : V
  paginate : Option Bool
  hardCap : Option Int
  resultsPerPage : Option Int
  findUids : Option (V → String → Option Int → List V)
  filters : FiltersArg
  sortBy : Option String
  sortDirection : Option String
  groupName : Option String

/-- The observable search result (without the wall-clock `timing`). -/
structure SearchResult (V : Type) where
  matchCount : Nat
  pageCount : Option Int
  users : List (UserRec V)

/-- JS `x || d` for an optional number (`undefined` and `0` are falsy). -/
def jsOrInt (x : Option Int) (d : Int) : Int :=
  match x with
  | none => d
  | some n => if n = 0 then d else n

/-- JS `x || d` for an optional string (`undefined` and `""` are falsy). -/
def jsStrOr (x : Option String) (d : String) : String :=
  match x with
  | none => d
  | some s => if s.isEmpty then d else s

/-- Truthiness of an optional string. -/
def jsStrTruthy (x : Option String) : Bool :=
  match x with
  | none => false
  | some s => !s.isEmpty

/-- JS `x > 0` for an optional number (`undefined > 0` is false). -/
def jsGtZero (x : Option Int) : Bool :=
  match x with
  | none => false
  | some n => n > 0

/-- `_.uniq`: keep the first occurrence of each element. -/
def jsUniq : List V → List V
  | [] => []
  | x :: xs => x :: jsUniq (xs.filter (fun y => y ≠ x))
termination_by l => l.length
decreasing_by
  simp only [List.length_cons]
  exact Nat.lt_succ_of_le (List.length_filter_le _ _)

/-- `l.filter((x, i) => mask[i])`. -/
def filterByMask (l : List V) (mask : List Bool) : List V :=
  (l.zip mask).filterMap (fun p => if p.2 then some p.1 else none)

/-- Stable insertion of `x` after every element `y` with `le y x`. -/
def insertBy {α : Type} (le : α → α → Bool) (x : α) : List α → List α
  | [] => [x]
  | y :: ys => if le y x then y :: insertBy le x ys else x :: y :: ys

/-- A stable sort by a boolean `le` (the JS engine's sort is stable; both
files pass it the same comparator). -/
def insertionSortBy {α : Type} (le : α → α → Bool) (l : List α) : List α :=
  l.foldl (fun acc x => insertBy le x acc) []

/-- `arr.length = n`: truncate, or extend with `undefined` elements. -/
def setLength (undef : V) (l : List V) (n : Nat) : List V :=
  l.take n ++ List.replicate (n - l.length) undef

/-- `arr.slice(start, stop)` for a non-negative `start`. -/
def jsSlice (l : List V) (start stop : Int) : List V :=
  (l.take (max 0 stop).toNat).drop (max 0 start).toNat

/-- `Math.ceil(a / b)` for a natural `a` (the `b ≤ 0` case is outside the
model's arithmetic; both pipelines evaluate the same expression). -/
def jsCeilDiv (a : Nat) (b : Int) : Int :=
  if b ≤ 0 then 0 else ((a + b.toNat - 1) / b.toNat : Nat)

/-- The `username`/`fullname` → ActivityPub field mapping (module-level
`apMapping` in one file, the inline `mapping` in the other). -/
def apMapping : String → Option String
  | "username" => some "ap.preferredUsername"
  | "fullname" => some "ap.name"
  | _ => none

/-- `filterFnMap` (identical in both files). -/
def filterFn (env : SearchEnv V) : String → Option (UserRec V → Bool)
  | "online" => some (fun u =>
      !env.statusOffline (u.fields "status") &&
        env.lastonlineRecent (u.fields "lastonline"))
  | "flagged" => some (fun u => env.parseIntPos (u.fields "flags"))
  | "verified" => some (fun u => env.truthy (u.fields "email:confirmed"))
  | "unverified" => some (fun u => !env.truthy (u.fields "email:confirmed"))
  | _ => none

/-- `filterFieldMap` (identical in both files). -/
def filterFieldMap : String → Option (List String)
  | "online" => some ["status", "lastonline"]
  | "flagged" => some ["flags"]
  | "verified" => some ["email:confirmed"]
  | "unverified" => some ["email:confirmed"]
  | _ => none

/-- `sortUsers(userData, sortBy, sortDirection)` (identical in both files). -/
def sortUsers (env : SearchEnv V) (userData : List (UserRec V)) (sortBy : String)
    (sortDirection : Option String) : List (UserRec V) :=
  match userData with
  | [] => []
  | u0 :: _ =>
      let dirStr := jsStrOr sortDirection "desc"
      let direction : Int := if dirStr = "desc" then 1 else -1
      if env.isNumber (u0.fields sortBy) then
        insertionSortBy (fun u1 u2 =>
          decide (direction *
            (env.numVal (u2.fields sortBy) - env.numVal (u1.fields sortBy)) ≤ 0)) userData
      else
        insertionSortBy (fun u1 u2 =>
          decide ((if env.ltV (u1.fields sortBy) (u2.fields sortBy) then -direction
            else if env.gtV (u1.fields sortBy) (u2.fields sortBy) then direction
            else 0) ≤ 0)) userData

/-- `searchByIP(ip)` (identical in both files): scan the `ip:*` keys, fetch
the members, dedupe. -/
def searchByIP (env : SearchEnv V) (ip : V) : List V :=
  jsUniq (env.ipRangeUids ip)

/-- The final `users` filter (identical in both files):
`userData.filter(user => (user && isNumber(user.uid) ? user.uid > 0 :
isUri(user.uid)))`.  A `null` entry reaches `user.uid` in the else branch of
the ternary and throws a `TypeError`, aborting the call. -/
def finalUserFilter (env : SearchEnv V) :
    List (Option (UserRec V)) → Except Unit (List (UserRec V))
  | [] => .ok []
  | none :: _ => .error ()
  | some u :: rest =>
      (finalUserFilter env rest).map (fun r =>
        if (if env.isNumber u.uid then env.uidPositive u.uid else env.isUri u.uid) then
          u :: r
        else r)

end UserSearch

/-! ### `src/src/user/search.js`: helper-decomposed version -/

namespace SearchSrc

open UserSearch

variable {V : Type} [DecidableEq V]

/-- `normalizeFilters(filters)`. -/
def normalizeFilters (filters : FiltersArg) : List String :=
  match filters with
  | .undef => []
  | .str s => if s.isEmpty then [] else [s]
  | .arr l => l

/-- `collectFields(sortBy, filters)`. -/
def collectFields (sortBy : Option String) (filters : List String) : List String :=
  (if jsStrTruthy sortBy then [sortBy.getD ""] else []) ++
    filters.foldl (fun acc f => acc ++ (filterFieldMap f).getD []) []

/-- `applyGroupFilter(uids, groupName)`. -/
def applyGroupFilter (env : SearchEnv V) (uids : List V)
    (groupName : Option String) : List V :=
  if jsStrTruthy groupName then
    filterByMask uids (env.isMembers uids (groupName.getD ""))
  else uids

/-- `maybeApplyBannedFilter(uids, filters)`. -/
def maybeApplyBannedFilter (env : SearchEnv V) (uids : List V)
    (filters : List String) : List V :=
  if filters.contains "banned" || filters.contains "notbanned" then
    let isMembersOfBanned := env.isMembers uids env.bannedUsersGroup
    let checkBanned := filters.contains "banned"
    (uids.zip isMembersOfBanned).filterMap
      (fun p => if (if checkBanned then p.2 else !p.2) then some p.1 else none)
  else uids

/-- `applyFilterFns(userData, filters)`. -/
def applyFilterFns (env : SearchEnv V) (userData : List (UserRec V))
    (filters : List String) : List (UserRec V) :=
  filters.foldl (fun acc f =>
    match filterFn env f with
    | some p => acc.filter p
    | none => acc) userData

/-- `filterAndSortUids(uids, data)` — the helper-decomposed version. -/
def filterAndSortUids (env : SearchEnv V) (uids : List V) (data : SearchData V) :
    List V :=
  let filteredUids := uids.filter (fun uid => env.parseIntTruthy uid || env.isUri uid)
  let filters := normalizeFilters data.filters
  let fields := collectFields data.sortBy filters
  let filteredUids := applyGroupFilter env filteredUids data.groupName
  if fields.isEmpty then filteredUids
  else
    let filteredUids := maybeApplyBannedFilter env filteredUids filters
    let fields := fields ++ ["uid"]
    let userData := applyFilterFns env (env.getUsersFields filteredUids fields) filters
    let userData := if jsStrTruthy data.sortBy then
        sortUsers env userData (data.sortBy.getD "") data.sortDirection
      else userData
    userData.map (fun u => u.uid)

/-- The `searchMethod` block of `User.search` (`data.findUids || findUids`,
plus the ActivityPub field fallback). -/
def runSearchMethod (env : SearchEnv V) (data : SearchData V) (query : V)
    (searchBy : String) : List V :=
  let searchMethod := data.findUids.getD env.defaultFindUids
  let uids := searchMethod query searchBy data.hardCap
  if env.activitypubEnabled then
    match apMapping searchBy with
    | some apField => uids ++ searchMethod query apField data.hardCap
    | none => uids
  else uids

/-- The inline ActivityPub block of `User.search` (lines 42–57): the handle /
URI resolution against the **raw** `data.query`, with the normalized `query`
used in the `assertion === true`, no-handle case. -/
def apCandidatesInline (env : SearchEnv V) (data : SearchData V) (query : V) :
    List V :=
  let handle := env.isWebfinger data.query
  if handle.isSome || env.isUri data.query then
    match env.resolveLocalIdUser data.query with
    | some localId => [localId]
    | none =>
        match env.assertActors (handle.getD data.query) with
        | .isTrue =>
            [match handle with
             | some h => env.getUidByUserslug h
             | none => query]
        | .arr ids => if ids.isEmpty then [] else ids
        | .other => []
  else []

/-- The inline uid-resolution block of `User.search` (lines 36–71):
ip / uid shortcuts, the ActivityPub handle resolution, then the search
method.  `query` is the normalized `data.query || ''`. -/
def resolveUidsInline (env : SearchEnv V) (data : SearchData V) (query : V)
    (searchBy : String) : List V :=
  if searchBy = "ip" then searchByIP env query
  else if searchBy = "uid" then [query]
  else
    let uids : List V :=
      if data.findUids.isNone && env.truthy data.uid then
        apCandidatesInline env data query
      else []
    if uids.isEmpty then runSearchMethod env data query searchBy else uids

/-- `User.search(data)` of `src/src/user/search.js`. -/
def search (env : SearchEnv V) (data : SearchData V) :
    Except Unit (SearchResult V) :=
  let query := if env.truthy data.query then data.query else env.emptyStr
  let searchBy := jsStrOr data.searchBy "username"
  let page := jsOrInt data.page 1
  let uid := if env.truthy data.uid then data.uid else env.zeroV
  let paginate := data.paginate.getD true
  let uids := resolveUidsInline env data query searchBy
  let uids := filterAndSortUids env uids data
  let uids := if jsGtZero data.hardCap then
      setLength env.undefV uids (data.hardCap.getD 0).toNat
    else uids
  let uids := env.hookUsersSearch uids uid
  let matchCount := uids.length
  let pag : List V × Option Int :=
    if paginate then
      let resultsPerPage := jsOrInt data.resultsPerPage env.userSearchResultsPerPage
      let start := (max 0 (page - 1)) * resultsPerPage
      let stop := start + resultsPerPage
      (jsSlice uids start stop, some (jsCeilDiv uids.length resultsPerPage))
    else (uids, none)
  let userData := env.getUsers pag.1 uid
  let blocks := env.blocksList uid
  let userData := if blocks.isEmpty then userData
    else userData.map (fun u? =>
      match u? with
      | some u => some { u with isBlocked := blocks.contains u.uid }
      | none => none)
  (finalUserFilter env userData).map (fun users =>
    ⟨matchCount, pag.2, users⟩)

end SearchSrc

/-! ### The second `User.search` (inline `filterAndSortUids`) -/

namespace SearchAlt

open UserSearch

variable {V : Type} [DecidableEq V]

/-- `filterAndSortUids(uids, data)` — the inline version. -/
def filterAndSortUids (env : SearchEnv V) (uids : List V) (data : SearchData V) :
    List V :=
  let uids := uids.filter (fun uid => env.parseIntTruthy uid || env.isUri uid)
  let filters : List String :=
    match data.filters with
    | .undef => []
    | .str s => if s.isEmpty then [] else [s]
    | .arr l => l
  let fields :=
    (if jsStrTruthy data.sortBy then [data.sortBy.getD ""] else []) ++
      filters.foldl (fun acc f => acc ++ (filterFieldMap f).getD []) []
  let uids := if jsStrTruthy data.groupName then
      filterByMask uids (env.isMembers uids (data.groupName.getD ""))
    else uids
  if fields.isEmpty then uids
  else
    let uids := if filters.contains "banned" || filters.contains "notbanned" then
        let isMembersOfBanned := env.isMembers uids env.bannedUsersGroup
        let checkBanned := filters.contains "banned"
        (uids.zip isMembersOfBanned).filterMap
          (fun p => if (if checkBanned then p.2 else !p.2) then some p.1 else none)
      else uids
    let fields := fields ++ ["uid"]
    let userData := filters.foldl (fun acc f =>
        match filterFn env f with
        | some p => acc.filter p
        | none => acc) (env.getUsersFields uids fields)
    let userData := if jsStrTruthy data.sortBy then
        sortUsers env userData (data.sortBy.getD "") data.sortDirection
      else userData
    userData.map (fun u => u.uid)

/-- `resolveActivityPubCandidates({ query, User })` — receives the **raw**
`data.query`. -/
def resolveActivityPubCandidates (env : SearchEnv V) (rawQuery : V) : List V :=
  let handle := env.isWebfinger rawQuery
  let isUriQ := env.isUri rawQuery
  if handle.isNone && !isUriQ then []
  else
    match env.resolveLocalIdUser rawQuery with
    | some localId => [localId]
    | none =>
        match env.assertActors (handle.getD rawQuery) with
        | .isTrue =>
            [match handle with
             | some h => env.getUidByUserslug h
             | none => rawQuery]
        | .arr ids => if ids.isEmpty then [] else ids
        | .other => []

/-- `runSearchMethodWithApFallback({ query, searchBy, data })`. -/
def runSearchMethodWithApFallback (env : SearchEnv V) (data : SearchData V)
    (query : V) (searchBy : String) : List V :=
  let searchMethod := data.findUids.getD env.defaultFindUids
  let uids := searchMethod query searchBy data.hardCap
  if env.activitypubEnabled then
    match apMapping searchBy with
    | some apField => uids ++ searchMethod query apField data.hardCap
    | none => uids
  else uids

/-- `resolveUidsFromSearchBy({ query, searchBy, data, User })`. -/
def resolveUidsFromSearchBy (env : SearchEnv V) (data : SearchData V) (query : V)
    (searchBy : String) : List V :=
  if searchBy = "ip" then searchByIP env query
  else if searchBy = "uid" then [query]
  else
    let uids := if data.findUids.isNone && env.truthy data.uid then
        resolveActivityPubCandidates env data.query
      else []
    if !uids.isEmpty then uids
    else runSearchMethodWithApFallback env data query searchBy

/-- `applyPagniation(uids, page, resultsPerPage)`. -/
def applyPagniation (uids : List V) (page resultsPerPage : Int) : List V × Int :=
  let start := (max 0 (page - 1)) * resultsPerPage
  let stop := start + resultsPerPage
  (jsSlice uids start stop, jsCeilDiv uids.length resultsPerPage)

/-- `attachBlockFlags(userData, blocks)`. -/
def attachBlockFlags (userData : List (Option (UserRec V))) (blocks : List V) :
    List (Option (UserRec V)) :=
  if blocks.isEmpty then userData
  else userData.map (fun u? =>
    match u? with
    | some u => some { u with isBlocked := blocks.contains u.uid }
    | none => none)

/-- `User.search(data)` of the second module. -/
def search (env : SearchEnv V) (data : SearchData V) :
    Except Unit (SearchResult V) :=
  let query := if env.truthy data.query then data.query else env.emptyStr
  let searchBy := jsStrOr data.searchBy "username"
  let page := jsOrInt data.page 1
  let uid := if env.truthy data.uid then data.uid else env.zeroV
  let paginate := data.paginate.getD true
  let uids := resolveUidsFromSearchBy env data query searchBy
  let uids := filterAndSortUids env uids data
  let uids := if jsGtZero data.hardCap then
      setLength env.undefV uids (data.hardCap.getD 0).toNat
    else uids
  let uids := env.hookUsersSearch uids uid
  let matchCount := uids.length
  let pag : List V × Option Int :=
    if paginate then
      let resultsPerPage := jsOrInt data.resultsPerPage env.userSearchResultsPerPage
      let pr := applyPagniation uids page resultsPerPage
      (pr.1, some pr.2)
    else (uids, none)
  let userData := attachBlockFlags (env.getUsers pag.1 uid) (env.blocksList uid)
  (finalUserFilter env userData).map (fun users =>
    ⟨matchCount, pag.2, users⟩)

end SearchAlt

/-! ### Equivalence of the two search implementations -/

namespace UserSearchEquiv

open UserSearch

variable {V : Type} [DecidableEq V]

omit [DecidableEq V] in
theorem filterAndSort_eq (env : SearchEnv V) (uids : List V) (data : SearchData V) :
    SearchSrc.filterAndSortUids env uids data =
      SearchAlt.filterAndSortUids env uids data := rfl

omit [DecidableEq V] in
theorem runSearchMethod_eq (env : SearchEnv V) (data : SearchData V) (query : V)
    (searchBy : String) :
    SearchSrc.runSearchMethod env data query searchBy =
      SearchAlt.runSearchMethodWithApFallback env data query searchBy := rfl

theorem apCandidates_eq (env : SearchEnv V) (data : SearchData V) (query : V)
    (hq : env.isUri data.query = true → query = data.query) :
    SearchSrc.apCandidatesInline env data query =
      SearchAlt.resolveActivityPubCandidates env data.query := by
  unfold SearchSrc.apCandidatesInline SearchAlt.resolveActivityPubCandidates
  cases hW : env.isWebfinger data.query with
  | some h => simp [hW]
  | none =>
      cases hU : env.isUri data.query with
      | false => simp [hW, hU]
      | true => simp [hW, hU, hq hU]

theorem resolveUids_eq (env : SearchEnv V) (data : SearchData V) (query : V)
    (searchBy : String) (hq : env.isUri data.query = true → query = data.query) :
    SearchSrc.resolveUidsInline env data query searchBy =
      SearchAlt.resolveUidsFromSearchBy env data query searchBy := by
  unfold SearchSrc.resolveUidsInline SearchAlt.resolveUidsFromSearchBy
  by_cases hip : searchBy = "ip"
  · simp [hip]
  by_cases huid : searchBy = "uid"
  · simp [hip, huid]
  rw [if_neg hip, if_neg hip, if_neg huid, if_neg huid]
  rw [apCandidates_eq env data query hq]
  by_cases hg : (data.findUids.isNone && env.truthy data.uid) = true
  · rw [if_pos hg]
    cases he : (SearchAlt.resolveActivityPubCandidates env data.query).isEmpty with
    | true => simp [he, runSearchMethod_eq]
    | false => simp [he]
  · rw [if_neg hg]
    simp [runSearchMethod_eq]

/-- C8: the two `User.search` implementations — the helper-decomposed one and
the inline one — compute the same result (the same uids after filtering,
group and banned checks, sorting, hard-cap truncation and pagination, hence
the same `matchCount`, `pageCount` and `users`) for every input.  The single
hypothesis is the real property of `activitypub.helpers.isUri` that a value
recognized as a URI is truthy: the inline version passes the raw `data.query`
where the other passes the normalized `data.query || ''`, and the two agree
exactly because that branch is only reached when `isUri(data.query)` holds. -/
theorem c8_user_search_equiv (env : SearchEnv V) (data : SearchData V)
    (huri : ∀ v, env.isUri v = true → env.truthy v = true) :
    SearchSrc.search env data = SearchAlt.search env data ∧
    (∀ uids : List V, SearchSrc.filterAndSortUids env uids data =
      SearchAlt.filterAndSortUids env uids data) := by
  refine ⟨?_, fun uids => filterAndSort_eq env uids data⟩
  have hq : env.isUri data.query = true →
      (if env.truthy data.query then data.query else env.emptyStr) = data.query := by
    intro h
    rw [if_pos (huri _ h)]
  simp only [SearchSrc.search, SearchAlt.search]
  rw [resolveUids_eq env data _ _ hq]
  rfl

/-- A concrete environment over `Int` uids exercising the two pipelines. -/
def wEnv : SearchEnv Int where
  truthy := fun v => decide (v ≠ 0)
  emptyStr := 0
  zeroV := 0
  undefV := -1
  parseIntTruthy := fun v => decide (v ≠ 0)
  isNumber := fun _ => true
  numVal := fun v => v
  ltV := fun a b => decide (a < b)
  gtV := fun a b => decide (b < a)
  uidPositive := fun v => decide (0 < v)
  isUri := fun _ => false
  isWebfinger := fun _ => none
  resolveLocalIdUser := fun _ => none
  assertActors := fun _ => .other
  getUidByUserslug := fun v => v
  ipRangeUids := fun _ => []
  defaultFindUids := fun _ _ _ => [1, 2, 3]
  isMembers := fun uids _ => uids.map (fun _ => true)
  bannedUsersGroup := "banned-users"
  getUsersFields := fun uids _ => uids.map (fun u => ⟨u, fun _ => 0, false⟩)
  hookUsersSearch := fun uids _ => uids
  getUsers := fun uids _ => uids.map (fun u => some ⟨u, fun _ => 0, false⟩)
  blocksList := fun _ => []
  activitypubEnabled := false
  userSearchResultsPerPage := 20
  statusOffline := fun _ => false
  lastonlineRecent := fun _ => true
  parseIntPos := fun v => decide (0 < v)

/-- A concrete search request. -/
def wData : SearchData Int where
  query := 5
  searchBy := none
  page := none
  uid := 7
  paginate := some true
  hardCap := none
  resultsPerPage := none
  findUids := none
  filters := .undef
  sortBy := none
  sortDirection := none
  groupName := none

/-- Witness for C8 at the concrete environment and request. -/
theorem c8_witness :
    (∀ v : Int, wEnv.isUri v = true → wEnv.truthy v = true) ∧
    (SearchSrc.search wEnv wData = SearchAlt.search wEnv wData ∧
      ∀ uids : List Int, SearchSrc.filterAndSortUids wEnv uids wData =
        SearchAlt.filterAndSortUids wEnv uids wData) :=
  ⟨fun v h => by simp [wEnv] at h,
   c8_user_search_equiv wEnv wData (fun v h => by simp [wEnv] at h)⟩

end UserSearchEquiv

end NodeBB
